import Mathlib

/-!
Verification development for the forwarding core of `forward.py`
(FORWARDERIFY repository).

The file shallowly embeds the parts of the source that the properties
below are about:

* `_apply_filters_and_prefix_suffix` (forward.py:1338-1396) — the
  filter & transform engine, embedded as `dedupSeen` and
  `applyFiltersCore` plus the settings wrapper
  `applyFiltersAndPrefixSuffix`.  Its non-`raw_text` branch is modelled
  as raising `TypeError`: the branch's statement
  `has_digit = any(re.search(r"\d", text))` (forward.py:1361) raises
  unconditionally, because `re.search` returns `None` or an `re.Match`
  and neither is iterable, so none of the four filter branches below it
  (forward.py:1364-1380) is ever reached;
* `_hot_message_handler` (forward.py:1267-1328) — the message
  classifier, embedded as `jobsForTarget`, `classifyTask`,
  `classifyTasks` and `hotMessageHandler`;
* `asyncio.Queue` put semantics used by the classifier and by
  `start_send_workers` (forward.py:1499-1500), embedded as
  `asyncioQueuePut` / `enqueueAll`;
* `send_worker_loop` (forward.py:1430-1490), embedded as
  `sendWorkerStep`;
* `resolve_target_entity_once` (forward.py:1399-1413), embedded as
  `resolveTargetEntityOnce` together with a deterministic oracle for the
  external `client.get_input_entity` call.

Machine-level caveats of the embedding are recorded next to each
definition.  Strings are modelled with Lean `String`; the ASCII
character classes `Char.isAlpha` / `Char.isDigit` stand for the regex
classes `[A-Za-z]` / `\d` and for `str.isalpha()` / `str.isdigit()`
(faithful on ASCII text, which is all the properties below exercise).
-/

/-! ## Filter flags and task settings -/

/-- The six boolean filter flags stored under the `"filters"` key of a
settings dict (see `_make_default_task_settings`, forward.py:134-149). -/
structure FilterFlags where
  raw_text : Bool
  numbers_only : Bool
  alphabets_only : Bool
  removed_alphabetic : Bool
  removed_numeric : Bool
  add_prefix_suffix : Bool
  deriving DecidableEq, Repr

/-- All filter flags off: the value of `fs.get(k)` lookups when
`settings.get("filters", {})` returned the empty dict. -/
def FilterFlags.allOff : FilterFlags :=
  ⟨false, false, false, false, false, false⟩

/-- Default flags (`_make_default_task_settings`): every filter off. -/
def FilterFlags.defaults : FilterFlags := FilterFlags.allOff

/-- The Python value found under the `"filters"` key of a settings dict.
The restore path (forward.py:1560-1563) copies any non-empty dict coming
from the database into `tasks_settings` without validating its shape, so
besides the well-formed flag dict the value can be an arbitrary non-dict
object, on which `fs.get(...)` raises `AttributeError`. -/
inductive FiltersVal where
  | flags (fs : FilterFlags)
  | nonDict
  deriving DecidableEq, Repr

/-- A per-(user,label) settings dict.  `control`, `outgoing` and
`forward_tag` are read with `.get(key, True)`, so a missing key behaves
like `true` and a total `Bool` field is faithful.  The `"filters"` key is
read both with `.get("filters", {})` (engine) and with direct indexing
`settings["filters"]` (classifier), so it is kept as an `Option`:
`none` models an absent key.  `prefixStr`/`suffixStr` model the
`"prefix"`/`"suffix"` entries (default `""`). -/
structure TaskSettings where
  outgoing : Bool
  forward_tag : Bool
  control : Bool
  filters : Option FiltersVal
  prefixStr : String
  suffixStr : String
  deriving DecidableEq, Repr

/-- `_make_default_task_settings()` (forward.py:134-149). -/
def makeDefaultTaskSettings : TaskSettings :=
  { outgoing := true
    forward_tag := true
    control := true
    filters := some (.flags FilterFlags.defaults)
    prefixStr := ""
    suffixStr := "" }

/-! ## The pure filter engine (`_apply_filters_and_prefix_suffix`)

The string primitives are implemented by structural recursion over
`String.data` (Lean's library versions use well-founded recursion over
byte positions, which the kernel cannot evaluate). -/

/-- Python `text.strip()` (forward.py:1353): drop leading and trailing
whitespace. -/
def stripChars (cs : List Char) : List Char :=
  ((cs.dropWhile Char.isWhitespace).reverse.dropWhile Char.isWhitespace).reverse

/-- `text.strip()` lifted to `String`. -/
def pyStrip (s : String) : String := String.mk (stripChars s.data)

/-- Python `tok.isalpha()`: non-empty and every character alphabetic.
The engine evaluates it only in the dead code below forward.py:1361
(the loop at forward.py:1373-1375); it is kept to state what that loop
would compute. -/
def pyIsAlpha (t : String) : Bool := !t.data.isEmpty && t.data.all Char.isAlpha

/-- Split a character list at every whitespace character, keeping the
(possibly empty) segments between them. -/
def splitWsAux : List Char → List Char → List (List Char)
  | [], cur => [cur.reverse]
  | c :: cs, cur =>
      if c.isWhitespace then cur.reverse :: splitWsAux cs []
      else splitWsAux cs (c :: cur)

/-- `re.split(r"\s+", text)` (forward.py:1360): the whitespace-run
separated tokens.  `re.split` can additionally yield empty tokens at the
ends of a non-stripped string; the engine applies it to stripped text,
and empty tokens never satisfy `isalpha`, so dropping them here is
behaviour-preserving.  (Line 1360 does execute in the non-`raw_text`
branch; the line after it raises.) -/
def pyTokens (text : String) : List String :=
  ((splitWsAux text.data []).filter (fun t => !t.isEmpty)).map String.mk

/-- The exceptions the embedded fragments can raise:
`attributeError` from `fs.get(...)` on a non-dict `"filters"` value
(forward.py:1356), `typeError` from `any(re.search(...))`
(forward.py:1361). -/
inductive PyExc where
  | attributeError
  | typeError
  deriving DecidableEq, Repr

/-- The dedup loop of forward.py:1383-1388: walk `results`, keep a `seen`
set, emit each string the first time it is met. -/
def dedupSeen : List String → List String → List String
  | [], _ => []
  | r :: rs, seen =>
      if r ∈ seen then dedupSeen rs seen
      else r :: dedupSeen rs (r :: seen)

/-- `_apply_filters_and_prefix_suffix` for a well-formed flag dict
(forward.py:1350-1396).  The `raw_text` branch (forward.py:1356-1357)
appends the stripped text as the single result, which is then
deduplicated (forward.py:1383-1388) and given
`f"{prefix}{line}{suffix}"` by the unconditional final loop
(forward.py:1391-1394).  The else branch computes the token split
(forward.py:1360) and then raises `TypeError` at forward.py:1361:
`any(re.search(r"\d", text))` iterates the non-iterable `None` /
`re.Match`, whether or not the text contains a digit, so the four
filter branches at forward.py:1364-1380 and the dedup/prefix loops
after them are never reached on this path. -/
def applyFiltersCore (messageText : String) (ffs : FilterFlags)
    (p sfx : String) : Except PyExc (List String) :=
  let text := pyStrip messageText
  if ffs.raw_text then
    let results := [text]
    let deduped := dedupSeen results []
    .ok (deduped.foldl (fun acc line => acc ++ [p ++ line ++ sfx]) [])
  else .error .typeError

/-- `_apply_filters_and_prefix_suffix(message_text, settings)` over a
full settings dict.  `settings.get("filters", {})` yields the empty dict
when the key is absent, so every flag lookup is falsy and the engine
behaves as with all flags off (entering the raising else branch); a
non-dict value makes the very first `fs.get("raw_text")`
(forward.py:1356) raise `AttributeError`. -/
def applyFiltersAndPrefixSuffix (messageText : String)
    (s : TaskSettings) : Except PyExc (List String) :=
  match s.filters with
  | some (.flags ffs) =>
      applyFiltersCore messageText ffs s.prefixStr s.suffixStr
  | none =>
      applyFiltersCore messageText FilterFlags.allOff s.prefixStr s.suffixStr
  | some .nonDict => .error .attributeError

/-! ## The message classifier (`_hot_message_handler`) -/

/-- Opaque reference to the original Telethon message object
(`event.message`). -/
abbrev MsgRef := Nat

/-- The payload of a queued send job: literal text, or the
`("__FORWARD_ORIG__", event.message)` marker tuple (forward.py:1321). -/
inductive Payload where
  | text (s : String)
  | forwardOrig (m : Option MsgRef)
  deriving DecidableEq, Repr

/-- An item put on `send_queue`: `(user_id, client, target_id, payload)`.
The client handle is determined by the user in this embedding and is
omitted. -/
structure QueuedItem where
  user_id : Int
  target_id : Int
  payload : Payload
  deriving DecidableEq, Repr

/-- An entry of `tasks_cache[user_id]` (only the fields the hot path
reads). -/
structure FwdTask where
  label : String
  source_ids : List Int
  target_ids : List Int
  deriving DecidableEq, Repr

/-- The `raw_text` flag as read by `settings["filters"].get("raw_text")`
(forward.py:1320).  The classifier evaluates this expression only after
the engine returned a non-empty output, which forces `filters` to be a
well-formed flag dict (an absent key yields no output and a non-dict
value has already raised), so the total function below is faithful
there. -/
def rawTextOn (s : TaskSettings) : Bool :=
  match s.filters with
  | some (.flags ffs) => ffs.raw_text
  | _ => false

/-- The per-target body of the classifier loop (forward.py:1312-1324):
if `forward_tag` is allowed, the `raw_text` filter is on and the engine
produced exactly one line, put a single relay-original job for this
target; otherwise put one text job per output line. -/
def jobsForTarget (userId : Int) (s : TaskSettings) (outs : List String)
    (origMsg : Option MsgRef) (targetId : Int) : List QueuedItem :=
  if s.forward_tag && rawTextOn s && outs.length == 1 then
    [⟨userId, targetId, .forwardOrig origMsg⟩]
  else
    outs.map (fun om => ⟨userId, targetId, .text om⟩)

/-- Processing of one task by the classifier loop (forward.py:1292-1326):
skip when the chat is not a source, when `control` is off, when the
event is outgoing and `outgoing` is off, or when the engine output is
empty; otherwise put the per-target jobs in target-list order.  An
exception raised by the engine escapes (the per-target `try` catches
only `asyncio.QueueFull`). -/
def classifyTask (userId chatId : Int) (messageText : String)
    (isOutgoing : Bool) (origMsg : Option MsgRef)
    (settingsOf : String → TaskSettings) (task : FwdTask) :
    Except PyExc (List QueuedItem) :=
  if chatId ∈ task.source_ids then
    let s := settingsOf task.label
    if !s.control then .ok []
    else if !s.outgoing && isOutgoing then .ok []
    else
      match applyFiltersAndPrefixSuffix messageText s with
      | .error e => .error e
      | .ok outs =>
          if outs.isEmpty then .ok []
          else .ok ((task.target_ids.map (jobsForTarget userId s outs origMsg)).flatten)
  else .ok []

/-- The task loop of the handler (forward.py:1292-1326) together with
the handler-level `try`/`except` (forward.py:1268, 1327-1328): tasks are
processed in order and their queue puts accumulate; the first exception
that escapes a task's processing aborts the whole loop and is caught and
logged by the outer handler (never re-raised).  The result is the list
of puts performed plus whether `logger.exception` fired. -/
def classifyTasks (userId chatId : Int) (messageText : String)
    (isOutgoing : Bool) (origMsg : Option MsgRef)
    (settingsOf : String → TaskSettings) :
    List FwdTask → List QueuedItem × Bool
  | [] => ([], false)
  | t :: ts =>
      match classifyTask userId chatId messageText isOutgoing origMsg settingsOf t with
      | .error _ => ([], true)
      | .ok jobs =>
          let rest := classifyTasks userId chatId messageText isOutgoing origMsg settingsOf ts
          (jobs ++ rest.1, rest.2)

/-- `_hot_message_handler` (forward.py:1267-1328) for an event that
carries a chat id: empty or whitespace-only text returns immediately;
otherwise the task loop runs.  (The `send_queue is None` guard is not
modelled: the queue is created before workers start.) -/
def hotMessageHandler (userId : Int) (tasks : List FwdTask)
    (settingsOf : String → TaskSettings) (chatId : Int)
    (messageText : String) (isOutgoing : Bool) (origMsg : Option MsgRef) :
    List QueuedItem × Bool :=
  if pyStrip messageText = "" then ([], false)
  else classifyTasks userId chatId messageText isOutgoing origMsg settingsOf tasks

/-! ## `asyncio.Queue` put semantics

`send_queue = asyncio.Queue(maxsize=SEND_QUEUE_MAXSIZE)`
(forward.py:1499-1500).  An awaited `Queue.put(item)` appends the item
when the queue is below capacity and otherwise suspends the caller until
a consumer frees a slot; it never raises `asyncio.QueueFull` (only
`put_nowait` does).  A `maxsize` of zero means unbounded. -/

/-- Outcome of `await queue.put(x)`: the put completed with the new
queue contents, or the producer coroutine is suspended (parked until a
`get` frees space) with the queue unchanged. -/
inductive PutResult (α : Type) where
  | completed (q : List α)
  | suspended (q : List α)
  deriving DecidableEq, Repr

/-- `await queue.put(x)` on an `asyncio.Queue(maxsize)` holding `q`. -/
def asyncioQueuePut (maxsize : Nat) (q : List α) (x : α) : PutResult α :=
  if maxsize == 0 || q.length < maxsize then .completed (q ++ [x])
  else .suspended q

/-- A producer awaiting `queue.put` for each item in turn, with no
consumer running: once a put suspends, the producer never resumes.
Returns the final queue contents and the items that were never
enqueued (the suspended put's item and everything after it). -/
def enqueueAll (maxsize : Nat) (q : List α) : List α → List α × List α
  | [] => (q, [])
  | x :: xs =>
      match asyncioQueuePut maxsize q x with
      | .completed q2 => enqueueAll maxsize q2 xs
      | .suspended q2 => (q2, x :: xs)

/-! ## The send worker (`send_worker_loop`, forward.py:1430-1490) -/

/-- Result of the external send attempt for one dequeued job: the
`client.forward_messages` / `client.send_message` call succeeded (or the
job was skipped because the original message was `None` or the target
could not be resolved — either way the worker just moves on), raised
`FloodWaitError` with the given `seconds` hint, or raised some other
exception (logged, job dropped). -/
inductive SendOutcome where
  | done
  | floodWait (seconds : Nat)
  | sendError
  deriving DecidableEq, Repr

/-- State of one worker and the queue it consumes. `attempts` records
every dequeued job in processing order; `slept` sums the
`asyncio.sleep` backoff time units; `stuck` marks a worker suspended
forever on a full-queue re-put. -/
structure WorkerState where
  queue : List QueuedItem
  attempts : List QueuedItem
  slept : Nat
  stuck : Bool
  deriving DecidableEq, Repr

/-- One iteration of `send_worker_loop` (forward.py:1438-1490), with the
external platform modelled by the oracle `behav`: dequeue the head job
and attempt it; on `FloodWaitError` with hint `w`, sleep `w + 1`
(forward.py:1475) and `await send_queue.put` the identical job back,
which appends it at the tail (forward.py:1477); on success or any other
error, move on to the next queued item.  An empty queue leaves the
worker suspended on `get`. -/
def sendWorkerStep (behav : QueuedItem → SendOutcome) (maxsize : Nat)
    (s : WorkerState) : WorkerState :=
  if s.stuck then s
  else
    match s.queue with
    | [] => s
    | j :: rest =>
        match behav j with
        | .done => { s with queue := rest, attempts := s.attempts ++ [j] }
        | .sendError => { s with queue := rest, attempts := s.attempts ++ [j] }
        | .floodWait w =>
            match asyncioQueuePut maxsize rest j with
            | .completed q2 =>
                { queue := q2, attempts := s.attempts ++ [j],
                  slept := s.slept + (w + 1), stuck := false }
            | .suspended q2 =>
                { queue := q2, attempts := s.attempts ++ [j],
                  slept := s.slept + (w + 1), stuck := true }

/-! ## Target resolution (`resolve_target_entity_once`, forward.py:1399-1413) -/

/-- Opaque resolved input entity (`client.get_input_entity` result). -/
abbrev Entity := Nat

/-- The flattened contents of `target_entity_cache`:
`(user_id, target_id) ↦ entity`. -/
abbrev EntityCache := List ((Int × Int) × Entity)

/-- Lookup of `target_entity_cache[user_id][target_id]`. -/
def cacheLookup : EntityCache → Int → Int → Option Entity
  | [], _, _ => none
  | (k, e) :: rest, u, t => if k = (u, t) then some e else cacheLookup rest u t

/-- Result of one `resolve_target_entity_once` call: the returned entity
(or `None`), the cache afterwards, and how many external
`client.get_input_entity` invocations the call performed. -/
structure ResolveResult where
  entity : Option Entity
  cache : EntityCache
  externalCalls : Nat
  deriving DecidableEq, Repr

/-- `resolve_target_entity_once(user_id, client, target_id)`
(forward.py:1399-1413), with the external
`client.get_input_entity(int(target_id))` call modelled by the
deterministic oracle `resolver` (`none` = the call raised): a cache hit
returns immediately; a miss performs exactly one external call, storing
the entity on success and leaving the cache unchanged on failure. -/
def resolveTargetEntityOnce (resolver : Int → Int → Option Entity)
    (c : EntityCache) (u t : Int) : ResolveResult :=
  match cacheLookup c u t with
  | some e => ⟨some e, c, 0⟩
  | none =>
      match resolver u t with
      | some e => ⟨some e, ((u, t), e) :: c, 1⟩
      | none => ⟨none, c, 1⟩

/-- Run a sequence of `resolve_target_entity_once` calls (the keys in
`calls`, in order), threading the cache through. -/
def runResolves (resolver : Int → Int → Option Entity) :
    List (Int × Int) → EntityCache → EntityCache
  | [], c => c
  | (u, t) :: rest, c =>
      runResolves resolver rest (resolveTargetEntityOnce resolver c u t).cache

/-- Total number of external `client.get_input_entity` invocations made
for the key `(u, t)` while running the call sequence `calls` from cache
`c`. -/
def callsFor (resolver : Int → Int → Option Entity) (u t : Int) :
    List (Int × Int) → EntityCache → Nat
  | [], _ => 0
  | (u', t') :: rest, c =>
      let r := resolveTargetEntityOnce resolver c u' t'
      (if (u', t') = (u, t) then r.externalCalls else 0) +
        callsFor resolver u t rest r.cache

/-! ## Specification-side definition for the deduplication claim -/

/-- Specification-style first-occurrence deduplication (spec §4.2:
"dedup preserves first occurrence order"): keep each string's first
occurrence and delete all later repeats. -/
def specFirstOccurrenceDedup : List String → List String
  | [] => []
  | x :: l =>
      x :: specFirstOccurrenceDedup (l.filter (fun y => decide (y ≠ x)))
termination_by l => l.length
decreasing_by
  exact Nat.lt_succ_of_le (List.length_filter_le _ l)

/-! ## General lemmas about the engine's building blocks -/

theorem mem_dedupSeen :
    ∀ (l seen : List String) (x : String),
      x ∈ dedupSeen l seen ↔ x ∈ l ∧ x ∉ seen
  | [], seen, x => by simp [dedupSeen]
  | r :: rs, seen, x => by
      by_cases hr : r ∈ seen
      · rw [dedupSeen, if_pos hr, mem_dedupSeen rs seen x]
        constructor
        · rintro ⟨hx, hns⟩
          exact ⟨List.mem_cons_of_mem _ hx, hns⟩
        · rintro ⟨hx, hns⟩
          rcases List.mem_cons.mp hx with rfl | hx'
          · exact absurd hr hns
          · exact ⟨hx', hns⟩
      · rw [dedupSeen, if_neg hr]
        constructor
        · intro hx
          rcases List.mem_cons.mp hx with rfl | hx'
          · exact ⟨List.mem_cons_self _ _, hr⟩
          · obtain ⟨h1, h2⟩ := (mem_dedupSeen rs (r :: seen) x).mp hx'
            exact ⟨List.mem_cons_of_mem _ h1,
              fun hs => h2 (List.mem_cons_of_mem _ hs)⟩
        · rintro ⟨hx, hns⟩
          rcases List.mem_cons.mp hx with rfl | hx'
          · exact List.mem_cons_self _ _
          · by_cases hxr : x = r
            · subst hxr; exact List.mem_cons_self _ _
            · exact List.mem_cons_of_mem _ ((mem_dedupSeen rs (r :: seen) x).mpr
                ⟨hx', fun hs => (List.mem_cons.mp hs).elim hxr hns⟩)

theorem nodup_dedupSeen :
    ∀ (l seen : List String), (dedupSeen l seen).Nodup
  | [], _ => by simp [dedupSeen]
  | r :: rs, seen => by
      by_cases hr : r ∈ seen
      · rw [dedupSeen, if_pos hr]
        exact nodup_dedupSeen rs seen
      · rw [dedupSeen, if_neg hr]
        refine List.nodup_cons.mpr ⟨?_, nodup_dedupSeen rs (r :: seen)⟩
        intro hmem
        exact ((mem_dedupSeen rs (r :: seen) r).mp hmem).2 (List.mem_cons_self r _)

theorem dedupSeen_eq_specFO :
    ∀ (l seen : List String),
      dedupSeen l seen =
        specFirstOccurrenceDedup (l.filter (fun x => decide (x ∉ seen)))
  | [], seen => by simp [dedupSeen, specFirstOccurrenceDedup]
  | r :: rs, seen => by
      by_cases hr : r ∈ seen
      · rw [dedupSeen, if_pos hr, dedupSeen_eq_specFO rs seen]
        congr 1
        rw [List.filter_cons]
        simp [hr]
      · rw [dedupSeen, if_neg hr, dedupSeen_eq_specFO rs (r :: seen)]
        have hfc : (r :: rs).filter (fun x => decide (x ∉ seen)) =
            r :: rs.filter (fun x => decide (x ∉ seen)) := by
          rw [List.filter_cons]
          simp [hr]
        rw [hfc]
        simp only [specFirstOccurrenceDedup]
        congr 1
        rw [List.filter_filter]
        congr 1
        apply List.filter_congr
        intro x _
        by_cases hxr : x = r
        · subst hxr; simp
        · by_cases hxs : x ∈ seen <;> simp [hxr, hxs]

theorem dedupSeen_nil_eq_specFO (l : List String) :
    dedupSeen l [] = specFirstOccurrenceDedup l := by
  rw [dedupSeen_eq_specFO l []]
  congr 1
  exact List.filter_eq_self.mpr (fun a _ => by simp)

theorem applyFiltersCore_raw (messageText : String) (ffs : FilterFlags)
    (p sfx : String) (hraw : ffs.raw_text = true) :
    applyFiltersCore messageText ffs p sfx =
      .ok [p ++ pyStrip messageText ++ sfx] := by
  unfold applyFiltersCore
  rw [hraw]
  simp [dedupSeen]

theorem applyFiltersCore_nonraw (messageText : String) (ffs : FilterFlags)
    (p sfx : String) (hraw : ffs.raw_text = false) :
    applyFiltersCore messageText ffs p sfx = .error .typeError := by
  unfold applyFiltersCore
  rw [hraw]
  simp

theorem flatten_map_singleton (f : α → β) :
    ∀ l : List α, (l.map (fun a => [f a])).flatten = l.map f
  | [] => rfl
  | x :: l => by simp [flatten_map_singleton f l]

/-! ## Claims about the filter engine -/

/-- C5: the engine's outcome — including the `TypeError` raised at
forward.py:1361 on every non-`raw_text` path, where no line survives —
never depends on the `add_prefix_suffix` flag, and whenever the engine
returns an output list at all, that list is the deduplicated
surviving-line list with `prefix + line + suffix` applied to every line
(no separator inserted): the final loop at forward.py:1391-1394 runs
unconditionally on every path that reaches it. -/
theorem C5_prefix_suffix_unconditional (messageText : String)
    (ffs : FilterFlags) (p sfx : String) (b : Bool) :
    applyFiltersCore messageText { ffs with add_prefix_suffix := b } p sfx =
      applyFiltersCore messageText ffs p sfx
    ∧ ∀ out, applyFiltersCore messageText ffs p sfx = .ok out →
        out = (dedupSeen [pyStrip messageText] []).map
          (fun line => p ++ line ++ sfx) := by
  constructor
  · cases ffs
    rfl
  · intro out hout
    by_cases hraw : ffs.raw_text = true
    · rw [applyFiltersCore_raw messageText ffs p sfx hraw] at hout
      injection hout with h
      rw [← h]
      simp [dedupSeen]
    · rw [applyFiltersCore_nonraw messageText ffs p sfx
        (Bool.not_eq_true _ ▸ hraw)] at hout
      cases hout

/-- C5 witness: at `"hi"` with `raw_text` on and `prefix = "<"`,
`suffix = ">"`, toggling `add_prefix_suffix` leaves the output
unchanged, and the returned list is the transformed surviving line. -/
theorem C5_prefix_suffix_unconditional_witness :
    applyFiltersCore "hi" ⟨true, false, false, false, false, true⟩ "<" ">" =
      applyFiltersCore "hi" ⟨true, false, false, false, false, false⟩ "<" ">"
    ∧ ["<hi>"] = (dedupSeen [pyStrip "hi"] []).map
        (fun line => "<" ++ line ++ ">") := by
  constructor
  · exact (C5_prefix_suffix_unconditional "hi"
      ⟨true, false, false, false, false, false⟩ "<" ">" true).1
  · exact (C5_prefix_suffix_unconditional "hi"
      ⟨true, false, false, false, false, false⟩ "<" ">" true).2
      ["<hi>"] rfl

/-- C6: for every non-empty trimmed text, if the `raw_text` filter flag
is on then the engine returns exactly `[prefix + text + suffix]`,
whatever the other five filter flags are (they are never evaluated: the
`raw_text` branch short-circuits them, skipping in particular the
raising else branch). -/
theorem C6_raw_text_short_circuit (text : String) (ffs : FilterFlags)
    (p sfx : String) (hraw : ffs.raw_text = true)
    (htrim : pyStrip text = text) (_hne : text ≠ "") :
    applyFiltersCore text ffs p sfx = .ok [p ++ text ++ sfx] := by
  rw [applyFiltersCore_raw text ffs p sfx hraw, htrim]

/-- C6 witness: at `text = "hello"`, all other flags on and
`prefix = "<"`, `suffix = ">"`, the output is `["<hello>"]`. -/
theorem C6_raw_text_short_circuit_witness :
    applyFiltersCore "hello" ⟨true, true, true, true, true, true⟩ "<" ">"
      = .ok ["<hello>"] := by
  exact C6_raw_text_short_circuit "hello" ⟨true, true, true, true, true, true⟩
    "<" ">" rfl (by decide) (by decide)

/-- C9 (code bug): with `removed_alphabetic` enabled (`raw_text` off)
the engine raises `TypeError` at forward.py:1361 before the
`removed_alphabetic` loop at forward.py:1371-1375 can run, so on
`"abc 123 def"` it yields no output at all; the second conjunct records
that the dead loop's computation — the purely-alphabetic whitespace
tokens in token order — would be `["abc", "def"]`, which is what the
claim (and the function's own docstring, forward.py:1345) promises. -/
theorem C9_removed_alphabetic_raises :
    applyFiltersCore "abc 123 def" ⟨false, false, false, true, false, false⟩ "" ""
      = .error .typeError
    ∧ (pyTokens (pyStrip "abc 123 def")).filter pyIsAlpha = ["abc", "def"] := by
  exact ⟨rfl, by decide⟩

/-- C10 (code bug): in the scenario the claim describes — several
non-`raw_text` filters enabled — the engine raises `TypeError` at
forward.py:1361 before any filter fires, so the union/dedup code at
forward.py:1382-1396 never processes a multi-filter result; the second
conjunct records that the dedup loop itself (forward.py:1383-1388, still
reached on the `raw_text` path) does implement first-occurrence
deduplication with no duplicates, which is the behaviour the claim (and
the docstring at forward.py:1348) promises for the union. -/
theorem C10_multi_filter_union_raises :
    applyFiltersCore "abc 123" ⟨false, true, false, false, true, false⟩ "" ""
      = .error .typeError
    ∧ ∀ l : List String,
        dedupSeen l [] = specFirstOccurrenceDedup l ∧ (dedupSeen l []).Nodup := by
  exact ⟨rfl, fun l => ⟨dedupSeen_nil_eq_specFO l, nodup_dedupSeen l []⟩⟩

/-! ## Claims about the classifier -/

/-- The C1 scenario task: source set {100}, target list [200, 300]. -/
def c1Task : FwdTask := ⟨"t1", [100], [200, 300]⟩

/-- The C1 scenario settings: defaults (so `forward_tag` is on and
prefix/suffix are empty) with the `raw_text` filter enabled. -/
def c1Settings : TaskSettings :=
  { makeDefaultTaskSettings with
      filters := some (.flags { FilterFlags.defaults with raw_text := true }) }

/-- C1 counterexample: in the claimed scenario (source {100}, targets
[200, 300], `raw_text` on, `forward_tag` on, inbound non-outgoing
`"hello"` in chat 100) the handler does not enqueue the two text
SendJobs `(200, "hello")` and `(300, "hello")`: the relay-original
shortcut of forward.py:1320-1321 fires instead. -/
theorem C1_counterexample :
    (hotMessageHandler 1 [c1Task] (fun _ => c1Settings) 100 "hello" false
        (some 7)).1 ≠
      [⟨1, 200, .text "hello"⟩, ⟨1, 300, .text "hello"⟩] := by
  decide

/-- C1 amended: in that scenario the handler enqueues exactly two
relay-original SendJobs, `(200, original message)` and
`(300, original message)`, in target-list order, and no exception is
logged. -/
theorem C1_two_relay_jobs :
    hotMessageHandler 1 [c1Task] (fun _ => c1Settings) 100 "hello" false
        (some 7) =
      ([⟨1, 200, .forwardOrig (some 7)⟩, ⟨1, 300, .forwardOrig (some 7)⟩],
        false) := by
  decide

/-- C7: whenever the relay-original condition holds for a matching task
(`control` on, the outgoing check passed, `forward_tag` on and the
`raw_text` filter on — which forces the engine output to be a single
line), the classifier enqueues one relay-original job per entry of the
task's target list, all referencing the same original message: the
shortcut fires once per target, so k targets yield k relay jobs. -/
theorem C7_relay_fires_per_target (userId chatId : Int)
    (messageText : String) (isOutgoing : Bool) (origMsg : Option MsgRef)
    (settingsOf : String → TaskSettings) (task : FwdTask)
    (ffs : FilterFlags)
    (hsrc : chatId ∈ task.source_ids)
    (hctl : (settingsOf task.label).control = true)
    (hski : (!(settingsOf task.label).outgoing && isOutgoing) = false)
    (hft : (settingsOf task.label).forward_tag = true)
    (hfl : (settingsOf task.label).filters = some (.flags ffs))
    (hraw : ffs.raw_text = true) :
    classifyTask userId chatId messageText isOutgoing origMsg settingsOf task =
      .ok (task.target_ids.map (fun t => ⟨userId, t, .forwardOrig origMsg⟩)) := by
  have hrt : rawTextOn (settingsOf task.label) = true := by
    unfold rawTextOn
    rw [hfl]
    exact hraw
  have hjt : ∀ x : String, ∀ tid : Int,
      jobsForTarget userId (settingsOf task.label) [x] origMsg tid =
        [⟨userId, tid, .forwardOrig origMsg⟩] := by
    intro x tid
    unfold jobsForTarget
    simp [hft, hrt]
  unfold classifyTask
  rw [if_pos hsrc]
  simp only [hctl, Bool.not_true, Bool.false_eq_true, if_false, hski,
    applyFiltersAndPrefixSuffix, hfl,
    applyFiltersCore_raw _ _ _ _ hraw, List.isEmpty_cons]
  congr 1
  rw [List.map_congr_left (fun tid _ => hjt _ tid)]
  exact flatten_map_singleton _ _

/-- C7 witness: the C1 scenario instantiates C7 with k = 2 targets. -/
theorem C7_relay_fires_per_target_witness :
    classifyTask 1 100 "hello" false (some 7) (fun _ => c1Settings) c1Task =
      .ok [⟨1, 200, .forwardOrig (some 7)⟩, ⟨1, 300, .forwardOrig (some 7)⟩] := by
  exact C7_relay_fires_per_target 1 100 "hello" false (some 7)
    (fun _ => c1Settings) c1Task { FilterFlags.defaults with raw_text := true }
    (by decide) rfl rfl rfl rfl rfl

/-- Settings whose `"filters"` entry is a non-dict value (possible via
the unvalidated DB restore path, forward.py:1560-1563): filter
evaluation raises `AttributeError` on it. -/
def c3BadSettings : TaskSettings :=
  { makeDefaultTaskSettings with filters := some .nonDict }

/-- Well-formed settings with `raw_text` on and `forward_tag` off, so a
matching task enqueues one text job per target. -/
def c3GoodSettings : TaskSettings :=
  { makeDefaultTaskSettings with
      forward_tag := false
      filters := some (.flags { FilterFlags.defaults with raw_text := true }) }

/-- First task of the C3 scenario (its settings raise). -/
def c3TaskA : FwdTask := ⟨"a", [100], [200]⟩

/-- Second task of the C3 scenario (well formed). -/
def c3TaskB : FwdTask := ⟨"b", [100], [300]⟩

/-- Settings store for the C3 scenario. -/
def c3SettingsOf : String → TaskSettings :=
  fun label => if label = "a" then c3BadSettings else c3GoodSettings

/-- C3 counterexample: two tasks of the same user match the event; the
first task's filter evaluation raises, and the second task — which on
its own would enqueue the text job `(300, "hello")` — is never
evaluated: the handler stops with no job enqueued and the exception
logged.  This refutes the claim that the remaining matching tasks are
still evaluated. -/
theorem C3_counterexample :
    hotMessageHandler 1 [c3TaskA, c3TaskB] c3SettingsOf 100 "hello" false
        (some 7) = ([], true)
    ∧ hotMessageHandler 1 [c3TaskB] c3SettingsOf 100 "hello" false
        (some 7) = ([⟨1, 300, .text "hello"⟩], false) := by
  decide

/-- The jobs one task's processing enqueued (empty when it raised). -/
def taskOkJobs (userId chatId : Int) (messageText : String)
    (isOutgoing : Bool) (origMsg : Option MsgRef)
    (settingsOf : String → TaskSettings) (task : FwdTask) :
    List QueuedItem :=
  match classifyTask userId chatId messageText isOutgoing origMsg settingsOf task with
  | .ok js => js
  | .error _ => []

/-- C3 amended: an exception raised while processing one task aborts the
evaluation of all remaining tasks for the same event (only
`asyncio.QueueFull` is caught inside the loop); the exception is caught
and logged by the handler's outer `try` and is not raised past the event
handler, and the jobs enqueued by the earlier tasks stand. -/
theorem C3_exception_aborts_remaining_tasks (userId chatId : Int)
    (messageText : String) (isOutgoing : Bool) (origMsg : Option MsgRef)
    (settingsOf : String → TaskSettings) (ts1 : List FwdTask) (t : FwdTask)
    (ts2 : List FwdTask) (e : PyExc)
    (h1 : ∀ t' ∈ ts1, ∃ js,
        classifyTask userId chatId messageText isOutgoing origMsg settingsOf t'
          = .ok js)
    (h2 : classifyTask userId chatId messageText isOutgoing origMsg settingsOf t
        = .error e) :
    classifyTasks userId chatId messageText isOutgoing origMsg settingsOf
        (ts1 ++ t :: ts2) =
      ((ts1.map
          (taskOkJobs userId chatId messageText isOutgoing origMsg settingsOf)).flatten,
        true) := by
  induction ts1 with
  | nil => simp [classifyTasks, h2]
  | cons a as ih =>
      obtain ⟨js, hjs⟩ := h1 a (List.mem_cons_self _ _)
      have ih' := ih (fun t' ht' => h1 t' (List.mem_cons_of_mem _ ht'))
      simp [classifyTasks, hjs, ih', taskOkJobs]

/-- C3 amended witness: with the raising task between two well-formed
tasks, only the earlier task's job is enqueued and the handler reports a
logged exception. -/
theorem C3_exception_aborts_remaining_tasks_witness :
    classifyTasks 1 100 "hello" false (some 7) c3SettingsOf
        [c3TaskB, c3TaskA, c3TaskB] = ([⟨1, 300, .text "hello"⟩], true) := by
  have h := C3_exception_aborts_remaining_tasks 1 100 "hello" false (some 7)
    c3SettingsOf [c3TaskB] c3TaskA [c3TaskB] .attributeError
    (by
      intro t' ht'
      rcases List.mem_singleton.mp ht' with rfl
      exact ⟨[⟨1, 300, .text "hello"⟩], rfl⟩)
    rfl
  exact h.trans (by decide)

/-! ## Claims about the queue and the workers -/

/-- C2 (evidence of the code defect): with capacity 3 and no consumer,
awaited puts of five jobs complete for the first three; the fourth put
suspends the producer with the queue unchanged — the job is neither
enqueued nor dropped, and the producer never returns.  The
`except asyncio.QueueFull` drop-and-log branches (forward.py:1325-1326
and 1478-1479) are unreachable because the awaited `Queue.put` never
raises `QueueFull`. -/
theorem C2_await_put_suspends :
    asyncioQueuePut 3
        [(⟨1, 200, .text "a"⟩ : QueuedItem), ⟨1, 200, .text "b"⟩,
          ⟨1, 200, .text "c"⟩] ⟨1, 200, .text "d"⟩
      = .suspended [⟨1, 200, .text "a"⟩, ⟨1, 200, .text "b"⟩, ⟨1, 200, .text "c"⟩]
    ∧ enqueueAll 3 []
        [(⟨1, 200, .text "a"⟩ : QueuedItem), ⟨1, 200, .text "b"⟩,
          ⟨1, 200, .text "c"⟩, ⟨1, 200, .text "d"⟩, ⟨1, 200, .text "e"⟩]
      = ([⟨1, 200, .text "a"⟩, ⟨1, 200, .text "b"⟩, ⟨1, 200, .text "c"⟩],
          [⟨1, 200, .text "d"⟩, ⟨1, 200, .text "e"⟩]) := by
  decide

/-- First job of the C4 scenario: its send raises FloodWait(5). -/
def c4J1 : QueuedItem := ⟨1, 200, .text "a"⟩

/-- Second job of the C4 scenario: its send succeeds. -/
def c4J2 : QueuedItem := ⟨1, 300, .text "b"⟩

/-- Platform behaviour for the C4 scenario. -/
def c4Behav : QueuedItem → SendOutcome :=
  fun j => if j.target_id = 200 then .floodWait 5 else .done

/-- Worker start state for the C4 scenario: the flood-waiting job at the
head of the queue, one more job behind it. -/
def c4Start : WorkerState := ⟨[c4J1, c4J2], [], 0, false⟩

/-- C4 counterexample: with jobs [j1, j2] queued and j1 raising
FloodWait(5), the worker's processing order is j1, then j2, then j1
again — after the rate-limit it advances to the next queued item and
reprocesses the re-enqueued job only afterwards, contradicting the
claim that the same job is reprocessed before advancing. -/
theorem C4_counterexample :
    ((sendWorkerStep c4Behav 10000)^[2] c4Start).attempts = [c4J1, c4J2]
    ∧ ((sendWorkerStep c4Behav 10000)^[3] c4Start).attempts = [c4J1, c4J2, c4J1]
    ∧ c4J2 ≠ c4J1 := by
  decide

/-- C4 amended: when a send raises a rate-limit signal carrying a
wait-seconds hint w, the worker sleeps exactly w + 1 time units and
re-enqueues the identical job at the tail of the queue (dequeuing freed
a slot, so the put completes whenever the rest of the queue is within
capacity), then advances to the next queued item: the re-enqueued job is
reprocessed only after the items that were already queued. -/
theorem C4_floodwait_tail_requeue (behav : QueuedItem → SendOutcome)
    (maxsize : Nat) (j : QueuedItem) (rest attempts : List QueuedItem)
    (slept w : Nat)
    (hfw : behav j = .floodWait w)
    (hroom : maxsize = 0 ∨ rest.length < maxsize) :
    sendWorkerStep behav maxsize ⟨j :: rest, attempts, slept, false⟩ =
      ⟨rest ++ [j], attempts ++ [j], slept + (w + 1), false⟩ := by
  have hcond : (maxsize == 0 || decide (rest.length < maxsize)) = true := by
    rcases hroom with h | h
    · simp [h]
    · simp [h]
  simp only [sendWorkerStep, hfw, asyncioQueuePut, hcond, if_true,
    Bool.false_eq_true, if_false]

/-- C4 amended witness: the first step of the C4 scenario — the worker
sleeps 6 time units and j1 moves to the tail, behind j2. -/
theorem C4_floodwait_tail_requeue_witness :
    sendWorkerStep c4Behav 10000 c4Start = ⟨[c4J2, c4J1], [c4J1], 6, false⟩ := by
  exact C4_floodwait_tail_requeue c4Behav 10000 c4J1 [c4J2] [] 0 5
    (by decide) (Or.inr (by decide))

/-! ## Claims about target resolution -/

theorem cacheLookup_preserved (resolver : Int → Int → Option Entity)
    (c : EntityCache) (u t u' t' : Int) (e : Entity)
    (h : cacheLookup c u t = some e) :
    cacheLookup (resolveTargetEntityOnce resolver c u' t').cache u t = some e := by
  unfold resolveTargetEntityOnce
  cases hl : cacheLookup c u' t' with
  | some e' => exact h
  | none =>
      cases hr : resolver u' t' with
      | some e2 =>
          by_cases hk : ((u', t') : Int × Int) = (u, t)
          · simp only [Prod.mk.injEq] at hk
            obtain ⟨hu, ht⟩ := hk
            subst hu; subst ht
            rw [hl] at h
            cases h
          · simp [cacheLookup, hk, h]
      | none => exact h

theorem callsFor_zero_of_cached (resolver : Int → Int → Option Entity)
    (u t : Int) (e : Entity) :
    ∀ (calls : List (Int × Int)) (c : EntityCache),
      cacheLookup c u t = some e → callsFor resolver u t calls c = 0
  | [], _, _ => rfl
  | (u', t') :: rest, c, h => by
      simp only [callsFor]
      rw [callsFor_zero_of_cached resolver u t e rest _
        (cacheLookup_preserved resolver c u t u' t' e h)]
      by_cases hk : ((u', t') : Int × Int) = (u, t)
      · simp only [Prod.mk.injEq] at hk
        obtain ⟨hu, ht⟩ := hk
        subst hu; subst ht
        simp [resolveTargetEntityOnce, h]
      · simp [hk]

theorem callsFor_le_one (resolver : Int → Int → Option Entity)
    (u t : Int) (e : Entity) (hres : resolver u t = some e) :
    ∀ (calls : List (Int × Int)) (c : EntityCache),
      callsFor resolver u t calls c ≤ 1
  | [], _ => by simp [callsFor]
  | (u', t') :: rest, c => by
      simp only [callsFor]
      by_cases hk : ((u', t') : Int × Int) = (u, t)
      · simp only [if_pos hk]
        simp only [Prod.mk.injEq] at hk
        obtain ⟨hu, ht⟩ := hk
        subst hu; subst ht
        cases hl : cacheLookup c u' t' with
        | some e0 =>
            have h0 := callsFor_zero_of_cached resolver u' t' e0 rest c hl
            simp [resolveTargetEntityOnce, hl, h0]
        | none =>
            have hstore : cacheLookup (((u', t'), e) :: c) u' t' = some e := by
              simp [cacheLookup]
            have h0 := callsFor_zero_of_cached resolver u' t' e rest _ hstore
            simp [resolveTargetEntityOnce, hl, hres, h0]
      · simp only [if_neg hk, Nat.zero_add]
        exact callsFor_le_one resolver u t e hres rest _

/-- C8: target resolution is memoized per (user, destination): a call
that finds a cached entry returns it with zero external resolver
invocations and an unchanged cache; a miss performs exactly one external
call, storing the handle on success; a failed resolution returns none
and leaves the cache entry absent (so a later call retries); and when
the external resolver can resolve (u, t), any sequence of resolve calls
starting from the empty cache performs at most one external invocation
for (u, t). -/
theorem C8_resolution_memoized (resolver : Int → Int → Option Entity)
    (c : EntityCache) (u t : Int) :
    (∀ e, cacheLookup c u t = some e →
        resolveTargetEntityOnce resolver c u t = ⟨some e, c, 0⟩)
    ∧ (∀ e, cacheLookup c u t = none → resolver u t = some e →
        resolveTargetEntityOnce resolver c u t = ⟨some e, ((u, t), e) :: c, 1⟩
        ∧ cacheLookup (((u, t), e) :: c) u t = some e)
    ∧ (cacheLookup c u t = none → resolver u t = none →
        resolveTargetEntityOnce resolver c u t = ⟨none, c, 1⟩)
    ∧ (∀ e, resolver u t = some e →
        ∀ calls : List (Int × Int), callsFor resolver u t calls [] ≤ 1) := by
  refine ⟨?_, ?_, ?_, ?_⟩
  · intro e he
    simp [resolveTargetEntityOnce, he]
  · intro e he hr
    refine ⟨by simp [resolveTargetEntityOnce, he, hr], by simp [cacheLookup]⟩
  · intro he hr
    simp [resolveTargetEntityOnce, he, hr]
  · intro e hr calls
    exact callsFor_le_one resolver u t e hr calls []

/-- External resolver for the C8 witness: user 1 can resolve target 200
to the handle 42; everything else fails. -/
def c8Resolver : Int → Int → Option Entity :=
  fun u t => if u = 1 ∧ t = 200 then some 42 else none

/-- C8 witness: a first resolve of (1, 200) makes one external call and
stores the handle; a second returns the cached handle with zero external
calls; resolving the unresolvable (1, 300) returns none and leaves the
cache unchanged; and a four-call sequence touching (1, 200) three times
makes at most one external call for it. -/
theorem C8_resolution_memoized_witness :
    resolveTargetEntityOnce c8Resolver [] 1 200 =
      ⟨some 42, [((1, 200), 42)], 1⟩
    ∧ resolveTargetEntityOnce c8Resolver [((1, 200), 42)] 1 200 =
        ⟨some 42, [((1, 200), 42)], 0⟩
    ∧ resolveTargetEntityOnce c8Resolver [] 1 300 = ⟨none, [], 1⟩
    ∧ callsFor c8Resolver 1 200 [(1, 200), (1, 200), (1, 300), (1, 200)] [] ≤ 1 := by
  refine ⟨?_, ?_, ?_, ?_⟩
  · exact ((C8_resolution_memoized c8Resolver [] 1 200).2.1 42 rfl
      (by decide)).1
  · exact (C8_resolution_memoized c8Resolver [((1, 200), 42)] 1 200).1 42
      (by decide)
  · exact (C8_resolution_memoized c8Resolver [] 1 300).2.2.1 rfl (by decide)
  · exact (C8_resolution_memoized c8Resolver [] 1 200).2.2.2 42 (by decide) _
